import Mathlib

/-!
Verification of the DemoCar SOVD training server core (`src/main.py`).

The Python module keeps all state in module-level globals (`vehicle_state`,
`DATA_RESOURCES`, `FAULTS`, `OPERATIONS`, `_op_counter`, `LOCKS`).  We embed
that state as an explicit `Server` record and each endpoint handler as a pure
function from a `Server` (plus the request parameters, the current wall-clock
time, and the outcomes of the random number generator) to an `Except`-wrapped
result.  Python floats are modelled as rationals; Python dicts as insertion-
ordered association lists (`lookupA` / `insertA` mirror `d[k]` and
`d[k] = v`).  An `HTTPException` raised by a handler is an `Except.error`
with the corresponding error kind; an unhandled Python exception escaping a
handler (a `KeyError` on a hard-coded dict) is `Err.keyError`.
-/

namespace SOVD

/-- The scalar JSON values this server stores and transports
(strings, integers, floats-as-rationals, booleans). -/
inductive Value where
  | str (s : String)
  | int (n : Int)
  | rat (q : Rat)
  | bool (b : Bool)
deriving DecidableEq

/-- Python truthiness (`bool(value)`) on the scalar fragment. -/
def pyBool : Value → Bool
  | Value.bool b => b
  | Value.str s => decide (s ≠ "")
  | Value.int n => decide (n ≠ 0)
  | Value.rat q => decide (q ≠ 0)

/-- `class Battery(BaseModel)`. -/
structure Battery where
  voltage : Rat
  status : String
deriving DecidableEq

/-- `class VehicleState(BaseModel)`.  The `engine`, `brake` and `lights`
attributes are typed `Value` because Python lets `apply_to_live_state`
assign an arbitrary request payload to them. -/
structure VehicleState where
  engine : Value
  brake : Value
  rpm : Int
  temperature : Rat
  speed : Int
  fuel_level : Rat
  lights : Value
  doors_locked : Bool
  battery : Battery
deriving DecidableEq

/-- The module-level `vehicle_state = VehicleState()` default instance. -/
def init_vehicle_state : VehicleState :=
  { engine := Value.str "off", brake := Value.str "released", rpm := 0,
    temperature := 75, speed := 0, fuel_level := 100,
    lights := Value.str "off", doors_locked := true,
    battery := { voltage := 12.6, status := "charging" } }

/-- One tick's worth of outcomes of the `random` module, one field per call
site inside `update_vehicle_state`. -/
structure TickRng where
  rpm_delta : Int
  temp : Rat
  volt : Rat
  speed_up : Int
  speed_down : Int
deriving DecidableEq

/-- `update_vehicle_state()` from `src/main.py`, with the random draws
passed in explicitly. -/
def update_vehicle_state (rng : TickRng) (s : VehicleState) : VehicleState :=
  if s.engine = Value.str "running" then
    { s with
      rpm := max 650 (min (s.rpm + rng.rpm_delta) 6000),
      temperature := rng.temp,
      battery := { s.battery with voltage := rng.volt },
      speed :=
        if s.brake = Value.str "released" then min (s.speed + rng.speed_up) 180
        else max (s.speed - rng.speed_down) 0,
      fuel_level := max (s.fuel_level - 0.02) 0 }
  else
    { s with rpm := 0, speed := max (s.speed - 2) 0 }

/-- An entry of the `ENTITIES` dict. -/
structure Entity where
  type : String
  name : String
  children : List String
deriving DecidableEq

/-- Python-dict lookup `d[k]` / `d.get(k)` on an insertion-ordered
association list. -/
def lookupA {α : Type} : List (String × α) → String → Option α
  | [], _ => none
  | kv :: rest, key => if kv.1 = key then some kv.2 else lookupA rest key

/-- Python-dict assignment `d[k] = v`: replaces in place, appends if new. -/
def insertA {α : Type} : List (String × α) → String → α → List (String × α)
  | [], key, v => [(key, v)]
  | kv :: rest, key, v =>
    if kv.1 = key then (key, v) :: rest else kv :: insertA rest key v

/-- The `ENTITIES` table fixed at startup. -/
def ENTITIES : List (String × Entity) :=
  [("vehicle", ⟨"Vehicle", "DemoCar", ["engine", "battery", "brakes", "lights", "doors"]⟩),
   ("engine", ⟨"Component", "ICE", []⟩),
   ("battery", ⟨"Component", "12V Battery", []⟩),
   ("brakes", ⟨"Component", "ServiceBrake", []⟩),
   ("lights", ⟨"Component", "ExteriorLights", []⟩),
   ("doors", ⟨"Component", "DoorLock", []⟩)]

/-- One entry of a `DATA_RESOURCES[entity]` dict: the optional `unit`,
`enum`, `type` keys, the `rw` capability string, and the optional stored
`value` key. -/
structure Descriptor where
  unit : Option String
  enum : Option (List Value)
  type : Option String
  rw : String
  value : Option Value
deriving DecidableEq

/-- The `DATA_RESOURCES` table as initialised at module load. -/
def DATA_RESOURCES : List (String × List (String × Descriptor)) :=
  [("vehicle",
    [("speed", ⟨some "km/h", none, none, "r", none⟩),
     ("fuel_level", ⟨some "%", none, none, "r", none⟩),
     ("temperature", ⟨some "°C", none, none, "r", none⟩),
     ("mode", ⟨none, some [Value.str "drive", Value.str "service", Value.str "transport"],
               none, "rw", some (Value.str "drive")⟩)]),
   ("engine",
    [("rpm", ⟨some "rpm", none, none, "r", none⟩),
     ("state", ⟨none, some [Value.str "off", Value.str "running"], none, "r", none⟩)]),
   ("battery",
    [("voltage", ⟨some "V", none, none, "r", none⟩),
     ("status", ⟨none, some [Value.str "charging", Value.str "discharging"], none, "r", none⟩)]),
   ("brakes",
    [("brake", ⟨none, some [Value.str "applied", Value.str "released"],
                none, "rw", some (Value.str "released")⟩)]),
   ("lights",
    [("lights", ⟨none, some [Value.str "off", Value.str "on"],
                 none, "rw", some (Value.str "off")⟩)]),
   ("doors",
    [("doors_locked", ⟨none, none, some "bool", "rw", some (Value.bool true)⟩)])]

/-- A `FAULTS` list entry. -/
structure Fault where
  id : String
  text : String
  status : String
deriving DecidableEq

/-- The `FAULTS` table as initialised at module load. -/
def FAULTS : List (String × List Fault) :=
  [("vehicle", []),
   ("engine", [⟨"P0420", "Catalyst System Efficiency Below Threshold", "stored"⟩]),
   ("battery", []),
   ("brakes", []),
   ("lights", [⟨"B1234", "Low Beam Left Failure", "active"⟩]),
   ("doors", [])]

/-- An `OPERATIONS` record. -/
structure Operation where
  entity : String
  name : String
  status : String
  progress : Int
  started_at : Rat
deriving DecidableEq

/-- A `LOCKS` lease. -/
structure Lock where
  token : String
  expires : Rat
deriving DecidableEq

/-- All of the module's mutable global state in one record. -/
structure Server where
  vehicle : VehicleState
  resources : List (String × List (String × Descriptor))
  faults : List (String × List Fault)
  ops : List (String × Operation)
  opCounter : Nat
  locks : List (String × Lock)
deriving DecidableEq

/-- The server state right after module load. -/
def initServer : Server :=
  { vehicle := init_vehicle_state, resources := DATA_RESOURCES, faults := FAULTS,
    ops := [], opCounter := 0, locks := [] }

/-- The error kinds a handler can produce.  `keyError` stands for an
unhandled Python `KeyError` escaping the handler (an HTTP 500, not one of
the enumerated SOVD failures). -/
inductive Err where
  | notFound
  | readOnly
  | lockRequired
  | keyError
deriving DecidableEq

/-- `Except.isOk` spelled out, used to assert a handler succeeded. -/
def exceptIsOk {ε α : Type} : Except ε α → Bool
  | Except.ok _ => true
  | Except.error _ => false

/-- `require_lock(entity_id, token)` as a boolean: `true` means the guard
passes, `false` means it raises 423.  The source rejects when there is no
current lease, or `current["expires"] < time.time()`, or
`current["token"] != token`. -/
def require_lock (s : Server) (entity_id : String) (token : Option String) (now : Rat) : Bool :=
  match lookupA s.locks entity_id with
  | none => false
  | some current => !(decide (current.expires < now)) && decide (token = some current.token)

/-- `GET /sovd/v1/entities/{entity_id}` (`get_entity`). -/
def get_entity (entity_id : String) : Except Err (String × Entity) :=
  match lookupA ENTITIES entity_id with
  | none => Except.error Err.notFound
  | some ent => Except.ok (entity_id, ent)

/-- The hard-coded per-entity live-value dict built inside
`list_data_resources` and `read_single`, with the (possibly crashing)
`DATA_RESOURCES["vehicle"]["mode"]["value"]` subterm passed in as `mode`. -/
def live_table (s : Server) (mode : Value) : List (String × List (String × Value)) :=
  [("vehicle",
    [("speed", Value.int s.vehicle.speed), ("fuel_level", Value.rat s.vehicle.fuel_level),
     ("temperature", Value.rat s.vehicle.temperature), ("mode", mode)]),
   ("engine", [("rpm", Value.int s.vehicle.rpm), ("state", s.vehicle.engine)]),
   ("battery",
    [("voltage", Value.rat s.vehicle.battery.voltage),
     ("status", Value.str s.vehicle.battery.status)]),
   ("brakes", [("brake", s.vehicle.brake)]),
   ("lights", [("lights", s.vehicle.lights)]),
   ("doors", [("doors_locked", Value.bool s.vehicle.doors_locked)])]

/-- `DATA_RESOURCES["vehicle"]["mode"]["value"]`: three chained subscripts,
each of which raises `KeyError` when the key is absent. -/
def getMode (s : Server) : Except Err Value :=
  match lookupA s.resources "vehicle" with
  | none => Except.error Err.keyError
  | some res =>
    match lookupA res "mode" with
    | none => Except.error Err.keyError
    | some d =>
      match d.value with
      | none => Except.error Err.keyError
      | some v => Except.ok v

/-- `GET .../data-resources` (`list_data_resources`): validates the entity,
advances the physical state by one tick, and returns the descriptor map
together with the entity's live values (`.get(entity_id, {})`). -/
def list_data_resources (s : Server) (entity_id : String) (rng : TickRng) :
    Except Err (List (String × Descriptor) × List (String × Value) × Server) :=
  match lookupA s.resources entity_id with
  | none => Except.error Err.notFound
  | some res =>
    let s1 := { s with vehicle := update_vehicle_state rng s.vehicle }
    match getMode s1 with
    | Except.error e => Except.error e
    | Except.ok mode =>
      Except.ok (res, (lookupA (live_table s1 mode) entity_id).getD [], s1)

/-- `GET .../data/{name}` (`read_single`): validates entity and resource
name against the catalog, calls `list_data_resources` for its tick side
effect, then rebuilds the live-value dict and indexes it with plain
subscripts (`values[entity_id][name]`), which raise `KeyError` for names
missing from the hard-coded dict. -/
def read_single (s : Server) (entity_id name : String) (rng : TickRng) :
    Except Err (Value × Server) :=
  match lookupA s.resources entity_id with
  | none => Except.error Err.notFound
  | some res0 =>
    match lookupA res0 name with
    | none => Except.error Err.notFound
    | some _ =>
      match list_data_resources s entity_id rng with
      | Except.error e => Except.error e
      | Except.ok (_, _, s1) =>
        match getMode s1 with
        | Except.error e => Except.error e
        | Except.ok mode =>
          match lookupA (live_table s1 mode) entity_id with
          | none => Except.error Err.keyError
          | some vals =>
            match lookupA vals name with
            | none => Except.error Err.keyError
            | some v => Except.ok (v, s1)

/-- `DATA_RESOURCES["vehicle"]["mode"]["value"] = value`, the first branch
of `apply_to_live_state`.  The missing-key branches would be `KeyError`s in
Python; they are unreachable from `write_single`, which has already checked
the entity and resource exist. -/
def set_mode_value (s : Server) (v : Value) : Server :=
  match lookupA s.resources "vehicle" with
  | none => s
  | some res =>
    match lookupA res "mode" with
    | none => s
    | some d =>
      { s with resources := (insertA s.resources "vehicle"
          (insertA res "mode" { d with value := some v })) }

/-- `apply_to_live_state(entity_id, name, value)`: four independent `if`s. -/
def apply_to_live_state (s : Server) (entity_id name : String) (v : Value) : Server :=
  let s1 := if entity_id = "vehicle" ∧ name = "mode" then set_mode_value s v else s
  let s2 := if entity_id = "brakes" ∧ name = "brake" then
      { s1 with vehicle := { s1.vehicle with brake := v } } else s1
  let s3 := if entity_id = "lights" ∧ name = "lights" then
      { s2 with vehicle := { s2.vehicle with lights := v } } else s2
  if entity_id = "doors" ∧ name = "doors_locked" then
    { s3 with vehicle := { s3.vehicle with doors_locked := pyBool v } } else s3

/-- `PUT .../data/{name}` (`write_single`): 404 for unknown entity or
resource, 405 unless `"w" in meta["rw"]` (character membership, since every
`rw` string is `"r"` or `"rw"`), 423 unless the lock validates,
then stores the value in the descriptor and propagates it to the live
state.  Note the source performs no check of the value against the
descriptor's `enum`. -/
def write_single (s : Server) (entity_id name : String) (value : Value)
    (lockToken : Option String) (now : Rat) : Except Err Server :=
  match lookupA s.resources entity_id with
  | none => Except.error Err.notFound
  | some res =>
    match lookupA res name with
    | none => Except.error Err.notFound
    | some meta =>
      if 'w' ∉ meta.rw.data then Except.error Err.readOnly
      else if !(require_lock s entity_id lockToken now) then Except.error Err.lockRequired
      else
        let s1 := { s with resources := (insertA s.resources entity_id
                      (insertA res name { meta with value := some value })) }
        Except.ok (apply_to_live_state s1 entity_id name value)

/-- `DELETE .../faults` (`clear_faults`): lock-gated, then
`FAULTS[entity_id] = []` with no entity-existence check. -/
def clear_faults (s : Server) (entity_id : String) (lockToken : Option String) (now : Rat) :
    Except Err Server :=
  if require_lock s entity_id lockToken now then
    Except.ok { s with faults := insertA s.faults entity_id [] }
  else Except.error Err.lockRequired

/-- `POST .../locks` (`acquire_lock`): unconditionally installs a fresh
lease `{token: "lock-" + randint(100000, 999999), expires: now + ttlSec}`,
with the drawn number `r` passed in explicitly.  There is no entity-id
check and no check of an existing lease. -/
def acquire_lock (s : Server) (entity_id : String) (ttlSec : Int) (r : Nat) (now : Rat) :
    String × Server :=
  let token := "lock-" ++ toString r
  (token, { s with locks := insertA s.locks entity_id ⟨token, now + (ttlSec : Rat)⟩ })

/-- `new_op`: bumps `_op_counter` and registers a fresh running operation. -/
def new_op (s : Server) (entity_id name : String) (now : Rat) : String × Server :=
  let c := s.opCounter + 1
  let op_id := "op-" ++ toString c
  (op_id,
    { s with
      opCounter := c,
      ops := (insertA s.ops op_id ⟨entity_id, name, "running", 0, now⟩) })

/-- `POST .../operations` (`start_operation`).  Only the `limit` key of the
parameter mapping is interpreted (`setSpeedLimiter`), so the parameters are
passed as `limitParam`.  The background `simulate_operation` task this
handler launches is modelled separately by `task_step`. -/
def start_operation (s : Server) (entity_id name : String)
    (limitParam : Option Int) (lockToken : Option String) (now : Rat) :
    Except Err (String × Server) :=
  if (name = "resetECU" ∨ name = "flashLights" ∨ name = "setSpeedLimiter")
      ∧ !(require_lock s entity_id lockToken now) then
    Except.error Err.lockRequired
  else
    let s1 :=
      if name = "startEngine" then
        { s with vehicle := { s.vehicle with engine := Value.str "running" } }
      else if name = "stopEngine" then
        { s with vehicle := { s.vehicle with engine := Value.str "off" } }
      else if name = "flashLights" then s
      else if name = "setSpeedLimiter" then
        match lookupA s.resources "vehicle" with
        | none => s
        | some res =>
          { s with resources := (insertA s.resources "vehicle"
              (insertA res "speed_limit"
                ⟨some "km/h", none, none, "rw", some (Value.int (limitParam.getD 120))⟩)) }
      else if name = "resetECU" then
        { s with faults := s.faults.map (fun p => (p.1, [])) }
      else s
    Except.ok (new_op s1 entity_id name now)

/-- `DELETE /sovd/v1/operations/{op_id}` (`stop_operation`): 404 for an
unknown id, 423 unless the lock on the operation's owning entity
validates, then sets the status to `"stopped"` unconditionally — with no
check of the current status. -/
def stop_operation (s : Server) (op_id : String) (lockToken : Option String) (now : Rat) :
    Except Err Server :=
  match lookupA s.ops op_id with
  | none => Except.error Err.notFound
  | some op =>
    if require_lock s op.entity lockToken now then
      Except.ok { s with ops := insertA s.ops op_id { op with status := "stopped" } }
    else Except.error Err.lockRequired

/-- The control point of a `simulate_operation(op_id, steps, delay)`
coroutine: `running i` means it is suspended in the `await` of loop
iteration `i`; `done` means the coroutine has returned. -/
inductive TaskState where
  | running (i : Nat)
  | done
deriving DecidableEq

/-- `OPERATIONS[op_id]["status"] = "completed"`, the line after the loop.
An absent id would raise `KeyError`, silently killing the background task
with the state unchanged (operations are never deleted, so this cannot
happen in a reachable state). -/
def set_completed (s : Server) (op_id : String) : Server :=
  match lookupA s.ops op_id with
  | none => s
  | some op => { s with ops := insertA s.ops op_id { op with status := "completed" } }

/-- One scheduling quantum of `simulate_operation`, from waking up out of
one `asyncio.sleep` to suspending in the next (or returning).  Iteration
`i` re-checks that the operation exists and is not `"stopped"`, then
writes `progress = int((i+1)*100/steps)`; the final iteration also writes
`status = "completed"` — there is no suspension point between the last
progress write and the completion write. -/
def task_step (s : Server) (op_id : String) (steps : Nat) : TaskState → Server × TaskState
  | TaskState.running i =>
    if i < steps then
      match lookupA s.ops op_id with
      | none => (s, TaskState.done)
      | some op =>
        if op.status = "stopped" then (s, TaskState.done)
        else
          let s1 := { s with ops := (insertA s.ops op_id
                        { op with progress := Int.ofNat ((i + 1) * 100 / steps) }) }
          if i + 1 = steps then (set_completed s1 op_id, TaskState.done)
          else (s1, TaskState.running (i + 1))
    else (set_completed s op_id, TaskState.done)
  | TaskState.done => (s, TaskState.done)

/-- `n` consecutive scheduling quanta of one operation's background task,
with no other events interleaved. -/
def task_iter (op_id : String) (steps : Nat) (p : Server × TaskState) (n : Nat) :
    Server × TaskState :=
  Nat.iterate (fun q => task_step q.1 op_id steps q.2) n p

/-- The error of a failed handler call, `none` on success. -/
def errOf {ε α : Type} : Except ε α → Option ε
  | Except.ok _ => none
  | Except.error e => some e

/-! ### Concrete states used by the claim theorems -/

/-- A fixed, arbitrary tick's worth of random draws. -/
def rng0 : TickRng := ⟨0, 75, 12.6, 0, 5⟩

/-- Startup state with a valid lease on `brakes`. -/
def C1state : Server :=
  { initServer with locks := [("brakes", ⟨"lock-111111", 100⟩)] }

/-- The state after the C1 write (the fallback branch is not taken). -/
def C1result : Server :=
  match write_single C1state "brakes" "brake" (Value.str "banana") (some "lock-111111") 0 with
  | Except.ok s => s
  | Except.error _ => C1state

/-- Startup state with one already-completed operation on `vehicle` and a
valid lease on `vehicle`. -/
def C2state : Server :=
  { initServer with
    ops := [("op-1", ⟨"vehicle", "startEngine", "completed", 100, 0⟩)],
    locks := [("vehicle", ⟨"lock-222222", 100⟩)] }

/-- The status of an operation after a handler call, `none` on failure. -/
def opStatusAfter (r : Except Err Server) (op_id : String) : Option String :=
  match r with
  | Except.ok s => (lookupA s.ops op_id).map Operation.status
  | Except.error _ => none

/-- Startup state with a lease on `vehicle` expiring exactly at time 100. -/
def C3state : Server :=
  { initServer with locks := [("vehicle", ⟨"lock-3", 100⟩)] }

/-- Startup state with a prior lease `lock-123456` on `doors`. -/
def C4state : Server :=
  { initServer with locks := [("doors", ⟨"lock-123456", 1000⟩)] }

/-- The state after acquiring a lock for the unknown entity id `"ghost"`. -/
def C7s1 : Server := (acquire_lock initServer "ghost" 30 555555 0).2

/-- An entity's fault list after a handler call, `none` on failure. -/
def faultsAfter (r : Except Err Server) (e : String) : Option (List Fault) :=
  match r with
  | Except.ok s => lookupA s.faults e
  | Except.error _ => none

/-- Startup state with a valid lease on `vehicle`, for the speed-limiter
scenario. -/
def C8state : Server :=
  { initServer with locks := [("vehicle", ⟨"lock-777777", 100⟩)] }

/-- The state after `start("vehicle", "setSpeedLimiter", {limit: 100})`
with the valid lock (the fallback branch is not taken). -/
def C8after : Server :=
  match start_operation C8state "vehicle" "setSpeedLimiter" (some 100)
      (some "lock-777777") 0 with
  | Except.ok p => p.2
  | Except.error _ => C8state

/-- The state `C2state` after the stop request took effect. -/
def C2stopped : Server :=
  { C2state with
    ops := (insertA C2state.ops "op-1" ⟨"vehicle", "startEngine", "stopped", 100, 0⟩) }

/-- Repeated `observe()` ticks with the engine kept off: fold
`update_vehicle_state` over a list of per-tick random draws. -/
def offRun : List TickRng → VehicleState → VehicleState
  | [], s => s
  | r :: rs, s => offRun rs (update_vehicle_state r s)

/-- A vehicle state with the engine off and a positive speed. -/
def C9state : VehicleState :=
  { init_vehicle_state with speed := 5 }

/-- Startup state with one stopped operation. -/
def C5state : Server :=
  { initServer with ops := [("op-9", ⟨"vehicle", "flashLights", "stopped", 30, 0⟩)] }

/-- Startup state with one freshly started (running) operation. -/
def C6state : Server :=
  { initServer with ops := [("op-1", ⟨"vehicle", "startEngine", "running", 0, 0⟩)] }

/-- The value/state pair returned by a concrete successful read (the
fallback branch is not taken). -/
def C10result : Value × Server :=
  match read_single initServer "doors" "doors_locked" rng0 with
  | Except.ok p => p
  | Except.error _ => (Value.bool false, initServer)

/-! ### Association-list lemmas -/

theorem lookupA_insertA_self {α : Type} (m : List (String × α)) (k : String) (v : α) :
    lookupA (insertA m k v) k = some v := by
  induction m with
  | nil => simp [insertA, lookupA]
  | cons kv rest ih =>
    by_cases h : kv.1 = k
    · simp [insertA, lookupA, h]
    · simp [insertA, lookupA, h, ih]

theorem lookupA_insertA_ne {α : Type} (m : List (String × α)) (k k' : String) (v : α)
    (h : k ≠ k') : lookupA (insertA m k v) k' = lookupA m k' := by
  induction m with
  | nil => simp [insertA, lookupA, h]
  | cons kv rest ih =>
    by_cases hk : kv.1 = k
    · simp [insertA, lookupA, hk, h]
    · simp [insertA, lookupA, hk, ih]

theorem insertA_insertA {α : Type} (m : List (String × α)) (k : String) (v w : α) :
    insertA (insertA m k v) k w = insertA m k w := by
  induction m with
  | nil => simp [insertA]
  | cons kv rest ih =>
    by_cases h : kv.1 = k
    · simp [insertA, h]
    · simp [insertA, h, ih]

/-- `require_lock` passes exactly when a lease exists whose expiry has not
strictly passed (`now ≤ expires`) and whose token is exactly the presented
one. -/
theorem require_lock_eq_true_iff (s : Server) (e : String) (tok : Option String) (now : Rat) :
    require_lock s e tok now = true
      ↔ ∃ l : Lock, lookupA s.locks e = some l ∧ now ≤ l.expires ∧ tok = some l.token := by
  unfold require_lock
  cases h : lookupA s.locks e with
  | none => simp
  | some l =>
    simp [not_lt, Bool.and_eq_true, Bool.not_eq_true', decide_eq_true_eq,
      decide_eq_false_iff_not]

/-! ### Claim theorems -/

/-- Claim C1 (code bug): `write_single` performs no enumeration check.  On
the writable enumerated resource `brakes`/`brake`, a write of `"banana"` —
outside the legal set `{applied, released}` — with a valid lock token
succeeds, stores `"banana"` in the descriptor, and propagates it to the
physical brake state, instead of failing with `InvalidValue` and leaving
both unchanged. -/
theorem write_invalid_value_accepted :
    exceptIsOk (write_single C1state "brakes" "brake" (Value.str "banana")
        (some "lock-111111") 0) = true
    ∧ ((lookupA ((lookupA C1result.resources "brakes").getD []) "brake").bind
        Descriptor.value) = some (Value.str "banana")
    ∧ C1result.vehicle.brake = Value.str "banana"
    ∧ ((lookupA ((lookupA C1state.resources "brakes").getD []) "brake").bind
        Descriptor.enum) = some [Value.str "applied", Value.str "released"]
    ∧ Value.str "banana" ∉ [Value.str "applied", Value.str "released"] := by
  decide

/-- Claim C2 (counterexample): `stop_operation` writes
`status = "stopped"` unconditionally, so a stop request with a valid lock
transitions an already-`completed` operation to `stopped` — the claim says
no event changes a completed operation's status. -/
theorem stop_flips_completed :
    (lookupA C2state.ops "op-1").map Operation.status = some "completed"
    ∧ opStatusAfter (stop_operation C2state "op-1" (some "lock-222222") 0) "op-1"
        = some "stopped" := by decide

/-- Claim C2 (amended): once an operation is `stopped`, a background tick
that observes it terminates without changing anything, and a stop request
leaves it `stopped` with its progress unchanged; for a `completed` (or any
other) operation, however, a successful stop request sets the status to
`"stopped"` while changing nothing else — `completed` is terminal for
ticks but not for stop requests. -/
theorem terminal_status_behaviour (s : Server) (op_id : String) (op : Operation)
    (h : lookupA s.ops op_id = some op) :
    (op.status = "stopped" → ∀ steps i, i < steps →
        task_step s op_id steps (TaskState.running i) = (s, TaskState.done))
    ∧ (∀ tok now s', stop_operation s op_id tok now = Except.ok s' →
        lookupA s'.ops op_id = some { op with status := "stopped" }
        ∧ s'.vehicle = s.vehicle ∧ s'.resources = s.resources ∧ s'.faults = s.faults
        ∧ s'.locks = s.locks
        ∧ ∀ k, k ≠ op_id → lookupA s'.ops k = lookupA s.ops k) := by
  constructor
  · intro hst steps i hi
    simp [task_step, hi, h, hst]
  · intro tok now s' hok
    unfold stop_operation at hok
    rw [h] at hok
    by_cases hl : require_lock s op.entity tok now
    · simp only [hl, if_true] at hok
      cases hok
      refine ⟨lookupA_insertA_self .., rfl, rfl, rfl, rfl, ?_⟩
      intro k hk
      exact lookupA_insertA_ne _ _ _ _ (fun he => hk he.symm)
    · simp [hl] at hok

/-- Witness for the amended C2 at a concrete state. -/
theorem terminal_status_behaviour_witness :
    lookupA C2stopped.ops "op-1" = some ⟨"vehicle", "startEngine", "stopped", 100, 0⟩ :=
  ((terminal_status_behaviour C2state "op-1"
      ⟨"vehicle", "startEngine", "completed", 100, 0⟩ (by decide)).2
    (some "lock-222222") 0 C2stopped rfl).1

/-- Claim C3 (counterexample): a lease expiring exactly **at** the current
instant still validates — the source rejects only `expires < now`, while
the claim requires `now < expires_at` strictly. -/
theorem validate_at_expiry_succeeds :
    lookupA C3state.locks "vehicle" = some ⟨"lock-3", 100⟩
    ∧ require_lock C3state "vehicle" (some "lock-3") 100 = true
    ∧ ¬((100 : Rat) < 100) := by decide

/-- Claim C3 (amended): `require_lock` passes iff a lease exists for the
entity, `now ≤ expires_at` (the boundary instant `now = expires_at` is
still accepted), and the presented token is exactly the lease's token; it
raises 423 in every other case. -/
theorem lock_validate_iff (s : Server) (e : String) (tok : Option String) (now : Rat) :
    require_lock s e tok now = true
      ↔ ∃ l : Lock, lookupA s.locks e = some l ∧ now ≤ l.expires ∧ tok = some l.token :=
  require_lock_eq_true_iff s e tok now

/-- Witness for the amended C3 at a concrete state. -/
theorem lock_validate_iff_witness :
    require_lock C3state "vehicle" (some "lock-3") 50 = true :=
  (lock_validate_iff C3state "vehicle" (some "lock-3") 50).mpr
    ⟨⟨"lock-3", 100⟩, by decide, by decide, rfl⟩

/-- Claim C4 (counterexample): re-acquiring the `doors` lock when the
generator happens to draw the number 123456 already embedded in the live
token issues the *same* token string, so the previous token still
validates afterwards — the invalidation does not hold for every outcome of
the random generator. -/
theorem reacquire_can_repeat_token :
    lookupA C4state.locks "doors" = some ⟨"lock-123456", 1000⟩
    ∧ (acquire_lock C4state "doors" 30 123456 0).1 = "lock-123456"
    ∧ require_lock (acquire_lock C4state "doors" 30 123456 0).2 "doors"
        (some "lock-123456") 5 = true := by
  refine ⟨by decide, rfl, ?_⟩
  refine (require_lock_eq_true_iff _ _ _ _).mpr
    ⟨⟨"lock-123456", (0 : Rat) + ((30 : Int) : Rat)⟩, ?_, by norm_num, rfl⟩
  exact lookupA_insertA_self ..

/-- Claim C4 (amended): `acquire_lock` always succeeds, always replaces
the entity's lease with `{token: "lock-" + r, expires: now + ttl}` for the
drawn number `r`, and a previously issued token `T` fails to validate
afterwards **whenever the fresh token string differs from `T`**; when the
generator re-draws the embedded number the old token remains valid. -/
theorem acquire_overwrites (s : Server) (e : String) (ttl : Int) (r : Nat) (now : Rat) :
    (acquire_lock s e ttl r now).1 = "lock-" ++ toString r
    ∧ lookupA (acquire_lock s e ttl r now).2.locks e
        = some ⟨"lock-" ++ toString r, now + (ttl : Rat)⟩
    ∧ (∀ T : String, T ≠ "lock-" ++ toString r →
        ∀ m : Rat, require_lock (acquire_lock s e ttl r now).2 e (some T) m = false) := by
  refine ⟨rfl, ?_, ?_⟩
  · simp [acquire_lock, lookupA_insertA_self]
  · intro T hT m
    simp [acquire_lock, require_lock, lookupA_insertA_self, hT]

/-- Witness for the amended C4 at a concrete state. -/
theorem acquire_overwrites_witness :
    require_lock (acquire_lock initServer "doors" 30 111111 0).2 "doors"
      (some "lock-999999") 5 = false :=
  (acquire_overwrites initServer "doors" 30 111111 0).2.2 "lock-999999" (by decide) 5

/-- Claim C7 (counterexample): `"ghost"` is not an entity — yet
`acquire_lock` succeeds and installs a lease for it, and a subsequent
`clear_faults` with that token succeeds and creates an (empty) fault-list
entry for it, instead of failing with `NotFound` and creating no state. -/
theorem acquire_unknown_entity :
    lookupA ENTITIES "ghost" = none
    ∧ lookupA initServer.resources "ghost" = none
    ∧ (acquire_lock initServer "ghost" 30 555555 0).1 = "lock-555555"
    ∧ (lookupA C7s1.locks "ghost").map Lock.token = some "lock-555555"
    ∧ lookupA C7s1.faults "ghost" = none
    ∧ faultsAfter (clear_faults C7s1 "ghost" (some "lock-555555") 0) "ghost"
        = some [] := by
  have hlock : require_lock C7s1 "ghost" (some "lock-555555") 0 = true :=
    (require_lock_eq_true_iff C7s1 "ghost" (some "lock-555555") 0).mpr
      ⟨⟨"lock-555555", (0 : Rat) + ((30 : Int) : Rat)⟩, lookupA_insertA_self .., by norm_num, rfl⟩
  refine ⟨by decide, by decide, rfl, by decide, by decide, ?_⟩
  unfold clear_faults
  rw [hlock]
  simp [faultsAfter, lookupA_insertA_self]

/-- Claim C7 (amended): entity-registry and data-resource reads do
validate the entity id against the startup tables and fail `NotFound` for
unknown ids, but `acquire_lock` succeeds for *every* entity id (installing
a lease) and `clear_faults` succeeds for every entity id holding a valid
lease (creating/emptying its fault list). -/
theorem entity_validation_gap (s : Server) (e : String) (ttl : Int) (r : Nat) (now : Rat) :
    lookupA (acquire_lock s e ttl r now).2.locks e
        = some ⟨"lock-" ++ toString r, now + (ttl : Rat)⟩
    ∧ (∀ tok, require_lock s e tok now = true →
        clear_faults s e tok now = Except.ok { s with faults := insertA s.faults e [] })
    ∧ (lookupA ENTITIES e = none → get_entity e = Except.error Err.notFound)
    ∧ (lookupA s.resources e = none →
        ∀ name rng, read_single s e name rng = Except.error Err.notFound) := by
  refine ⟨?_, ?_, ?_, ?_⟩
  · simp [acquire_lock, lookupA_insertA_self]
  · intro tok h; simp [clear_faults, h]
  · intro h; simp [get_entity, h]
  · intro h name rng; simp [read_single, h]

/-- Witness for the amended C7 at a concrete state. -/
theorem entity_validation_gap_witness :
    clear_faults C7s1 "ghost" (some "lock-555555") 0
      = Except.ok { C7s1 with faults := insertA C7s1.faults "ghost" [] } :=
  (entity_validation_gap C7s1 "ghost" 30 555555 0).2.1 (some "lock-555555")
    ((require_lock_eq_true_iff C7s1 "ghost" (some "lock-555555") 0).mpr
      ⟨⟨"lock-555555", (0 : Rat) + ((30 : Int) : Rat)⟩, lookupA_insertA_self .., by norm_num, rfl⟩)

/-- Claim C8 (code bug): after `setSpeedLimiter` adds the `speed_limit`
resource to the vehicle catalog, that resource passes `read_single`'s
catalog check but is absent from the hard-coded live-value dict, so
`values[name]` raises an unhandled `KeyError` (HTTP 500) — not the
enumerated `NotFound`, and not a value.  A catalog resource like `mode`
still reads fine. -/
theorem speed_limit_read_crashes :
    exceptIsOk (start_operation C8state "vehicle" "setSpeedLimiter" (some 100)
        (some "lock-777777") 0) = true
    ∧ (lookupA ((lookupA C8after.resources "vehicle").getD []) "speed_limit").isSome = true
    ∧ errOf (read_single C8after "vehicle" "speed_limit" rng0) = some Err.keyError
    ∧ exceptIsOk (read_single C8after "vehicle" "mode" rng0) = true := by decide

/-- Claim C5 (confirmed): when the background task wakes up for a progress
step (`i < steps`) and observes the operation `stopped` (or absent), it
returns immediately with the server state untouched, and a finished task
never writes anything on any later quantum — a stopped operation is never
overwritten back to `running` or `completed` by a later scheduled tick. -/
theorem stopped_tick_no_write (s : Server) (op_id : String) (steps i : Nat)
    (hi : i < steps)
    (h : lookupA s.ops op_id = none
      ∨ ∃ op, lookupA s.ops op_id = some op ∧ op.status = "stopped") :
    task_step s op_id steps (TaskState.running i) = (s, TaskState.done)
    ∧ ∀ n s₂, task_iter op_id steps (s₂, TaskState.done) n = (s₂, TaskState.done) := by
  constructor
  · rcases h with h | ⟨op, h, hst⟩
    · simp [task_step, hi, h]
    · simp [task_step, hi, h, hst]
  · intro n
    induction n with
    | zero => intro s₂; rfl
    | succ m ih => intro s₂; exact ih s₂

/-- Witness for C5 at a concrete state. -/
theorem stopped_tick_no_write_witness :
    task_step C5state "op-9" 10 (TaskState.running 3) = (C5state, TaskState.done) :=
  (stopped_tick_no_write C5state "op-9" 10 3 (by decide)
    (Or.inr ⟨⟨"vehicle", "flashLights", "stopped", 30, 0⟩, by decide, rfl⟩)).1

/-- Arithmetic of the progress formula at the call-site `steps = 10`. -/
theorem hundred_div_ten (k : Nat) : k * 100 / 10 = 10 * k := by omega

/-- Helper for C6: the background task run with the call-site parameters
(`steps = 10`) and no interleaved events, started on a running operation:
after `n + 1 ≤ 10` quanta the progress is `10 * (n + 1)` and the status is
still `running`, except that the 10th quantum writes progress 100 together
with status `completed` and ends the task. -/
theorem task_run_closed_form (s₀ : Server) (op_id : String) (op₀ : Operation)
    (h : lookupA s₀.ops op_id = some op₀) (hs : op₀.status = "running") :
    ∀ n, n < 10 →
      task_iter op_id 10 (s₀, TaskState.running 0) (n + 1)
        = ({ s₀ with ops := (insertA s₀.ops op_id
              ⟨op₀.entity, op₀.name, (if n + 1 = 10 then "completed" else "running"),
               Int.ofNat (10 * (n + 1)), op₀.started_at⟩) },
           if n + 1 = 10 then TaskState.done else TaskState.running (n + 1)) := by
  intro n
  induction n with
  | zero =>
    intro _
    show task_step s₀ op_id 10 (TaskState.running 0) = _
    simp only [task_step, h, hs]
    rw [if_neg (by decide : ¬("running" = "stopped"))]
    norm_num
  | succ m ih =>
    intro hm
    have hm' : m < 10 := Nat.lt_of_succ_lt hm
    have hne : m + 1 ≠ 10 := by omega
    have prev := ih hm'
    simp only [if_neg hne] at prev
    have step : task_iter op_id 10 (s₀, TaskState.running 0) (m + 1 + 1)
        = task_step (task_iter op_id 10 (s₀, TaskState.running 0) (m + 1)).1 op_id 10
            (task_iter op_id 10 (s₀, TaskState.running 0) (m + 1)).2 := by
      unfold task_iter
      rw [Function.iterate_succ_apply']
    rw [step, prev]
    simp only [task_step, lookupA_insertA_self, insertA_insertA, hundred_div_ten,
      set_completed]
    by_cases h10 : m + 1 + 1 = 10
    · simp [h10, hm, lookupA_insertA_self, insertA_insertA]
    · simp [h10, hm, lookupA_insertA_self, insertA_insertA]

/-- Claim C6 (confirmed): an operation whose background task runs
undisturbed (never stopped) with the call-site parameters (`steps = 10`)
advances its progress in fixed increments of 10 — after quantum `n + 1`
the progress is exactly `10 * (n + 1)`, hence non-decreasing across ticks
— and the 10th quantum writes progress exactly 100 in the same atomic step
in which the status becomes `completed`. -/
theorem operation_progress_fixed_steps (s₀ : Server) (op_id : String) (op₀ : Operation)
    (h : lookupA s₀.ops op_id = some op₀) (hs : op₀.status = "running") :
    ∀ n, n + 1 ≤ 10 →
      lookupA (task_iter op_id 10 (s₀, TaskState.running 0) (n + 1)).1.ops op_id
        = some ⟨op₀.entity, op₀.name, (if n + 1 = 10 then "completed" else "running"),
                Int.ofNat (10 * (n + 1)), op₀.started_at⟩ := by
  intro n hn
  rw [task_run_closed_form s₀ op_id op₀ h hs n (by omega)]
  exact lookupA_insertA_self ..

/-- Witness for C6: a concrete run of ten quanta on a fresh operation
completes with progress exactly 100. -/
theorem operation_progress_fixed_steps_witness :
    lookupA (task_iter "op-1" 10 (C6state, TaskState.running 0) 10).1.ops "op-1"
      = some ⟨"vehicle", "startEngine", "completed", 100, 0⟩ := by
  have h9 := operation_progress_fixed_steps C6state "op-1"
    ⟨"vehicle", "startEngine", "running", 0, 0⟩ (by decide) rfl 9 (by decide)
  simpa using h9

/-- Helper for C9: with the engine off, repeated ticks keep the engine
off, drive the speed to `max (speed - 2 * n) 0`, and zero the rpm on
every tick. -/
theorem offRun_spec (rs : List TickRng) :
    ∀ s : VehicleState, s.engine = Value.str "off" → 0 ≤ s.speed →
      (offRun rs s).engine = Value.str "off"
      ∧ (offRun rs s).speed = max (s.speed - 2 * (rs.length : Int)) 0
      ∧ (rs ≠ [] → (offRun rs s).rpm = 0) := by
  induction rs with
  | nil =>
    intro s h hsp
    refine ⟨h, ?_, by simp⟩
    show s.speed = max (s.speed - 2 * ((0 : Nat) : Int)) 0
    omega
  | cons r rs ih =>
    intro s h hsp
    have hstep : update_vehicle_state r s
        = { s with rpm := 0, speed := max (s.speed - 2) 0 } := by
      unfold update_vehicle_state
      rw [if_neg (by rw [h]; decide)]
    have h1 : (update_vehicle_state r s).engine = Value.str "off" := by rw [hstep]; exact h
    have h2 : 0 ≤ (update_vehicle_state r s).speed := by
      rw [hstep]; exact le_max_right _ _
    obtain ⟨e1, e2, e3⟩ := ih (update_vehicle_state r s) h1 h2
    refine ⟨e1, ?_, ?_⟩
    · show (offRun rs (update_vehicle_state r s)).speed = _
      rw [e2, hstep]
      show max (max (s.speed - 2) 0 - 2 * ((rs.length : Nat) : Int)) 0
          = max (s.speed - 2 * ((rs.length + 1 : Nat) : Int)) 0
      omega
    · intro _
      cases rs with
      | nil =>
        show (update_vehicle_state r s).rpm = 0
        rw [hstep]
      | cons r2 rs2 =>
        show (offRun (r2 :: rs2) (update_vehicle_state r s)).rpm = 0
        exact e3 (by simp)

/-- Claim C9 (confirmed, under the documented invariant `0 ≤ speed`): with
the engine off, every tick sets `rpm` to exactly 0 and moves `speed` to
`max (speed - 2) 0` — a decrease by the fixed step 2, floored at 0 — so
over repeated ticks the speed is non-increasing, never negative, and is
exactly 0 once `2 * n ≥ speed`. -/
theorem engine_off_decay (s : VehicleState) (hoff : s.engine = Value.str "off")
    (hsp : 0 ≤ s.speed) :
    (∀ r : TickRng,
      (update_vehicle_state r s).rpm = 0
      ∧ (update_vehicle_state r s).speed = max (s.speed - 2) 0
      ∧ (update_vehicle_state r s).speed ≤ s.speed
      ∧ 0 ≤ (update_vehicle_state r s).speed)
    ∧ (∀ rs : List TickRng,
      (offRun rs s).speed = max (s.speed - 2 * (rs.length : Int)) 0
      ∧ 0 ≤ (offRun rs s).speed
      ∧ (offRun rs s).speed ≤ s.speed
      ∧ (s.speed ≤ 2 * (rs.length : Int) → (offRun rs s).speed = 0)) := by
  constructor
  · intro r
    have hstep : update_vehicle_state r s
        = { s with rpm := 0, speed := max (s.speed - 2) 0 } := by
      unfold update_vehicle_state
      rw [if_neg (by rw [hoff]; decide)]
    rw [hstep]
    refine ⟨rfl, rfl, ?_, ?_⟩
    · show max (s.speed - 2) 0 ≤ s.speed
      omega
    · show (0 : Int) ≤ max (s.speed - 2) 0
      omega
  · intro rs
    obtain ⟨-, e2, -⟩ := offRun_spec rs s hoff hsp
    rw [e2]
    exact ⟨rfl, by omega, by omega, fun hle => by omega⟩

/-- Witness for C9: from speed 5 with the engine off, three ticks bring
the speed to exactly 0. -/
theorem engine_off_decay_witness :
    (offRun [rng0, rng0, rng0] C9state).speed = 0 :=
  ((engine_off_decay C9state rfl (by decide)).2 [rng0, rng0, rng0]).2.2.2 (by decide)

/-- Claim C10 (confirmed): every successful `read_single` returns a state
that differs from the input state exactly by one application of
`update_vehicle_state` (one evolution tick, not zero), and by nothing
else: descriptors, faults, operations, the operation counter, and the lock
table are all unchanged. -/
theorem read_advances_one_tick (s : Server) (e name : String) (rng : TickRng)
    (v : Value) (s' : Server)
    (h : read_single s e name rng = Except.ok (v, s')) :
    s' = { s with vehicle := update_vehicle_state rng s.vehicle }
    ∧ s'.vehicle = update_vehicle_state rng s.vehicle
    ∧ s'.resources = s.resources ∧ s'.faults = s.faults ∧ s'.ops = s.ops
    ∧ s'.opCounter = s.opCounter ∧ s'.locks = s.locks := by
  unfold read_single at h
  cases h1 : lookupA s.resources e with
  | none => simp only [h1] at h; exact Except.noConfusion h
  | some res0 =>
    simp only [h1] at h
    cases h2 : lookupA res0 name with
    | none => simp only [h2] at h; exact Except.noConfusion h
    | some d =>
      simp only [h2] at h
      cases h3 : list_data_resources s e rng with
      | error err => simp only [h3] at h; exact Except.noConfusion h
      | ok t =>
        obtain ⟨res1, live1, s1⟩ := t
        simp only [h3] at h
        cases h4 : getMode s1 with
        | error err => simp only [h4] at h; exact Except.noConfusion h
        | ok mode =>
          simp only [h4] at h
          cases h5 : lookupA (live_table s1 mode) e with
          | none => simp only [h5] at h; exact Except.noConfusion h
          | some vals =>
            simp only [h5] at h
            cases h6 : lookupA vals name with
            | none => simp only [h6] at h; exact Except.noConfusion h
            | some v1 =>
              simp only [h6] at h
              injection h with h7
              injection h7 with hv hs'
              subst hs'
              unfold list_data_resources at h3
              simp only [h1] at h3
              cases h8 : getMode { s with vehicle := update_vehicle_state rng s.vehicle } with
              | error err => simp only [h8] at h3; exact Except.noConfusion h3
              | ok mode2 =>
                simp only [h8] at h3
                injection h3 with h9
                injection h9 with hres h10
                injection h10 with hlive hs1
                subst hs1
                exact ⟨rfl, rfl, rfl, rfl, rfl, rfl, rfl⟩

/-- Witness for C10 at a concrete successful read. -/
theorem read_advances_one_tick_witness :
    C10result.2 = { initServer with vehicle := update_vehicle_state rng0 initServer.vehicle } :=
  (read_advances_one_tick initServer "doors" "doors_locked" rng0
    C10result.1 C10result.2 rfl).1

end SOVD
